import Mathlib

/-!
Verification of the `leankit` client library (`src/leankit/api.py`).

The development shallowly embeds the parts of the code the claims talk
about:

* the `retry` decorator (`api.py`, lines 20-42) becomes a pure function
  `f_retry` producing a `RetryTrace`: the list of logged messages, the
  list of delays slept, the number of invocations of the wrapped
  operation, and the final result.  The wrapped operation is modelled as
  a function from the (0-based) invocation index to `Except E A`, so an
  operation may behave differently on every attempt, exactly as a real
  side-effecting callable can.  Delays are rationals (the Python code
  multiplies arbitrary numbers).
* the HTTP-level client functions become functions of the `Response`
  the remote service answers with; `requests`' `raise_for_status`
  becomes an `Except` producing `HTTPError` on a 4xx/5xx status.
* JSON bodies are modelled by a small `Json` inductive.
-/

/-- Trace of one invocation of the retry wrapper: messages emitted on the
logging channel (the caught error together with the delay announced in the
message), delays slept, number of calls of the wrapped operation, and the
outcome. -/
structure RetryTrace (E A : Type) where
  logs : List (E × ℚ)
  sleeps : List ℚ
  calls : Nat
  result : Except E A

/-- Embedding of the `while mtries > 1` loop of `f_retry` (api.py lines
25-38) followed by the final `return f(*args, **kwargs)` (line 39).
`mtries` and `mdelay` are the loop state; `attempt` counts how many times
the wrapped operation has already been invoked.  With `mtries ≤ 1` the
loop body never runs and the final call is made at once; otherwise the
operation is tried, a success returns immediately, and a failure is
logged (lines 30-34), slept on (line 35), and the loop continues with
`mtries - 1` and `mdelay * backoff` (lines 36-37).  The failure of the
final call at line 39 is outside the `try` and is neither caught nor
logged. -/
def retryGo {E A : Type} (op : Nat → Except E A) (backoff : ℚ) :
    Nat → ℚ → Nat → RetryTrace E A
  | 0, _, attempt => ⟨[], [], 1, op attempt⟩
  | 1, _, attempt => ⟨[], [], 1, op attempt⟩
  | (m+2), mdelay, attempt =>
    match op attempt with
    | Except.ok a => ⟨[], [], 1, Except.ok a⟩
    | Except.error e =>
      let t := retryGo op backoff (m+1) (mdelay * backoff) (attempt + 1)
      ⟨(e, mdelay) :: t.logs, mdelay :: t.sleeps, t.calls + 1, t.result⟩

/-- Embedding of `f_retry` itself: the decorated callable produced by
`retry(tries, delay, backoff)` in api.py.  The first line of `f_retry`
(`mtries, mdelay = tries, delay`) initialises the loop state afresh on
every invocation, so the trace is a pure function of the arguments: no
policy state survives from one invocation to the next.  The Python
defaults are `tries = 13`, `delay = 1`, `backoff = 2`. -/
def f_retry {E A : Type} (op : Nat → Except E A) (tries : Nat)
    (delay backoff : ℚ) : RetryTrace E A :=
  retryGo op backoff tries delay 0

/-- Master lemma for an always-failing operation: with loop state
`(m, md)` starting at invocation index `att`, the wrapper makes
`max m 1` calls, returns the error of the last call, sleeps the
geometric sequence `md * backoff ^ i` for `i < m - 1`, and logs exactly
the errors of the first `m - 1` calls, each with the delay slept after
it. -/
theorem retryGo_fail {E A : Type} (op : Nat → Except E A) (errf : Nat → E)
    (hop : ∀ k, op k = Except.error (errf k)) (b : ℚ) (m : Nat) :
    ∀ (md : ℚ) (att : Nat),
      (retryGo op b m md att).calls = max m 1 ∧
      (retryGo op b m md att).result = Except.error (errf (att + (max m 1 - 1))) ∧
      (retryGo op b m md att).sleeps =
        (List.range (m - 1)).map (fun i => md * b ^ i) ∧
      (retryGo op b m md att).logs =
        (List.range (m - 1)).map (fun i => (errf (att + i), md * b ^ i)) := by
  induction m using Nat.strong_induction_on with
  | _ m ih =>
    match m with
    | 0 => intro md att; simp [retryGo, hop att]
    | 1 => intro md att; simp [retryGo, hop att]
    | (k+2) =>
      intro md att
      obtain ⟨ihc, ihr, ihs, ihl⟩ := ih (k+1) (by omega) (md * b) (att + 1)
      simp only [retryGo, hop att]
      refine ⟨?_, ?_, ?_, ?_⟩
      · show (retryGo op b (k+1) (md * b) (att+1)).calls + 1 = max (k+2) 1
        rw [ihc]; omega
      · show (retryGo op b (k+1) (md * b) (att+1)).result = _
        rw [ihr]
        have h : att + 1 + (max (k+1) 1 - 1) = att + (max (k+2) 1 - 1) := by omega
        rw [h]
      · show md :: (retryGo op b (k+1) (md * b) (att+1)).sleeps = _
        rw [ihs]
        have h : (k + 2) - 1 = ((k + 1) - 1) + 1 := by omega
        rw [h, List.range_succ_eq_map, List.map_cons, List.map_map]
        simp only [pow_zero, mul_one]
        refine congrArg (md :: ·) (List.map_congr_left fun i _ => ?_)
        simp only [Function.comp_apply, pow_succ]
        ring
      · show (errf att, md) :: (retryGo op b (k+1) (md * b) (att+1)).logs = _
        rw [ihl]
        have h : (k + 2) - 1 = ((k + 1) - 1) + 1 := by omega
        rw [h, List.range_succ_eq_map, List.map_cons, List.map_map]
        simp only [pow_zero, mul_one, Nat.add_zero]
        refine congrArg ((errf att, md) :: ·) (List.map_congr_left fun i _ => ?_)
        simp only [Function.comp_apply, pow_succ]
        refine Prod.ext ?_ ?_
        · show errf (att + 1 + i) = errf (att + (i + 1))
          congr 1
          omega
        · show md * b * b ^ i = md * (b ^ i * b)
          ring

/-- Master lemma for the success path: if the first `j` invocations fail
and invocation `j` (0-based) succeeds with value `a`, and the loop state
allows at least `j + 1` calls (`j < m`), the wrapper stops at that call:
`j + 1` invocations, result `a`, and one log message per failed attempt. -/
theorem retryGo_succ {E A : Type} (op : Nat → Except E A) (b : ℚ) (j : Nat) :
    ∀ (m : Nat) (md : ℚ) (att : Nat) (a : A) (errf : Nat → E),
      (∀ k, k < j → op (att + k) = Except.error (errf k)) →
      op (att + j) = Except.ok a →
      j < m →
      (retryGo op b m md att).calls = j + 1 ∧
      (retryGo op b m md att).result = Except.ok a ∧
      (retryGo op b m md att).logs.length = j := by
  induction j with
  | zero =>
    intro m md att a errf _ hsucc hm
    rw [Nat.add_zero] at hsucc
    rcases m with _ | m'
    · omega
    rcases m' with _ | k
    · exact ⟨rfl, hsucc, rfl⟩
    · simp [retryGo, hsucc]
  | succ j IH =>
    intro m md att a errf hfail hsucc hm
    obtain ⟨k, rfl⟩ : ∃ k, m = k + 2 := ⟨m - 2, by omega⟩
    have h0 : op att = Except.error (errf 0) := by
      have h := hfail 0 (by omega)
      rwa [Nat.add_zero] at h
    obtain ⟨c1, c2, c3⟩ := IH (k+1) (md * b) (att + 1) a (fun i => errf (i+1))
      (fun i hi => by
        have h := hfail (i+1) (by omega)
        rwa [show att + (i+1) = att + 1 + i by omega] at h)
      (by rwa [show att + 1 + j = att + (j+1) by omega])
      (by omega)
    simp only [retryGo, h0]
    refine ⟨?_, c2, ?_⟩
    · show (retryGo op b (k+1) (md * b) (att+1)).calls + 1 = (j + 1) + 1
      rw [c1]
    · show ((errf 0, md) :: (retryGo op b (k+1) (md * b) (att+1)).logs).length = j + 1
      rw [List.length_cons, c3]

/-- The delays slept by one invocation always form a prefix of the
geometric sequence `md, md * b, md * b ^ 2, …`, whatever the wrapped
operation does. -/
theorem retryGo_sleeps_geom {E A : Type} (op : Nat → Except E A) (b : ℚ)
    (m : Nat) :
    ∀ (md : ℚ) (att : Nat), ∃ n,
      (retryGo op b m md att).sleeps =
        (List.range n).map (fun i => md * b ^ i) := by
  induction m using Nat.strong_induction_on with
  | _ m ih =>
    match m with
    | 0 => intro md att; exact ⟨0, rfl⟩
    | 1 => intro md att; exact ⟨0, rfl⟩
    | (k+2) =>
      intro md att
      rcases hop : op att with e | a
      · obtain ⟨n, hn⟩ := ih (k+1) (by omega) (md * b) (att + 1)
        refine ⟨n + 1, ?_⟩
        simp only [retryGo, hop]
        show md :: (retryGo op b (k+1) (md * b) (att+1)).sleeps = _
        rw [hn, List.range_succ_eq_map, List.map_cons, List.map_map]
        simp only [pow_zero, mul_one]
        refine congrArg (md :: ·) (List.map_congr_left fun i _ => ?_)
        simp only [Function.comp_apply, pow_succ]
        ring
      · exact ⟨0, by simp [retryGo, hop]⟩

/-- C1: for every `max_attempts = N` with `N ≥ 1` and an operation that
fails on every invocation, the wrapper invokes the operation exactly `N`
times, the propagated error is exactly the error raised by the Nth
(final) attempt — index `N - 1` with 0-based counting — unwrapped and
unmodified, and `N - 1` delays are slept, so for `N = 1` the operation is
invoked exactly once, no delay is incurred and the error propagates
immediately. -/
theorem retry_always_fails_spec {E A : Type} (op : Nat → Except E A)
    (errf : Nat → E) (hop : ∀ k, op k = Except.error (errf k))
    (N : Nat) (hN : 1 ≤ N) (d b : ℚ) :
    (f_retry op N d b).calls = N ∧
    (f_retry op N d b).result = Except.error (errf (N - 1)) ∧
    (f_retry op N d b).sleeps.length = N - 1 := by
  obtain ⟨hc, hr, hs, _⟩ := retryGo_fail op errf hop b N d 0
  refine ⟨?_, ?_, ?_⟩
  · rw [f_retry, hc]; omega
  · have h : 0 + (max N 1 - 1) = N - 1 := by omega
    rw [f_retry, hr, h]
  · rw [f_retry, hs, List.length_map, List.length_range]

/-- Witness for C1 at `N = 3`, `d = 1`, `b = 2`, with the operation that
raises its invocation index: three calls, error 2 from the third call,
two delays. -/
theorem retry_always_fails_spec_witness :
    (f_retry (fun k => (Except.error k : Except Nat Nat)) 3 1 2).calls = 3 ∧
    (f_retry (fun k => (Except.error k : Except Nat Nat)) 3 1 2).result =
      Except.error 2 ∧
    (f_retry (fun k => (Except.error k : Except Nat Nat)) 3 1 2).sleeps.length = 2 :=
  retry_always_fails_spec (fun k => Except.error k) (fun k => k)
    (fun _ => rfl) 3 (by omega) 1 2

/-- C2 counterexample: with `max_attempts = 1` the single attempt fails
and yet the log stays empty — the final call of `f_retry` sits outside
the `try`, so its failure propagates without any message being emitted,
contradicting the claim that every failed attempt, the last included, is
reported. -/
theorem retry_final_failure_unlogged_cex :
    (f_retry (fun _ => (Except.error 7 : Except Nat Nat)) 1 1 2).calls = 1 ∧
    (f_retry (fun _ => (Except.error 7 : Except Nat Nat)) 1 1 2).result =
      Except.error 7 ∧
    (f_retry (fun _ => (Except.error 7 : Except Nat Nat)) 1 1 2).logs = [] :=
  ⟨rfl, rfl, rfl⟩

/-- C2 amended: for an always-failing operation under `max_attempts = N`,
exactly the first `N - 1` failed attempts are reported on the logging
channel, each message carrying that attempt's error together with the
delay about to be slept (so the report happens before the next retry is
scheduled); the failure of the Nth, final attempt is not reported — it
propagates with no message. -/
theorem retry_logs_all_but_last {E A : Type} (op : Nat → Except E A)
    (errf : Nat → E) (hop : ∀ k, op k = Except.error (errf k))
    (N : Nat) (d b : ℚ) :
    (f_retry op N d b).logs =
      (List.range (N - 1)).map (fun i => (errf i, d * b ^ i)) := by
  obtain ⟨_, _, _, hl⟩ := retryGo_fail op errf hop b N d 0
  rw [f_retry, hl]
  refine List.map_congr_left fun i _ => ?_
  rw [Nat.zero_add]

/-- Witness for the amended C2 at `N = 3`: the log holds the errors of
attempts one and two only. -/
theorem retry_logs_all_but_last_witness :
    (f_retry (fun k => (Except.error k : Except Nat Nat)) 3 1 2).logs =
      (List.range 2).map (fun i => (i, (1 * 2 ^ i : ℚ))) :=
  retry_logs_all_but_last (fun k => Except.error k) (fun k => k)
    (fun _ => rfl) 3 1 2

/-- C3: for every wrapped operation, `max_attempts = N`, `initial_delay
= d` and `backoff_factor = b`, the delay slept before attempt `k` (for
`k ≥ 2`, attempts counted from 1; the wait before attempt `k` is entry
`k - 2` of the sleep list) equals `d * b ^ (k - 2)`; and when `d ≥ 0`
and `b ≥ 1` the slept delays are monotonically non-decreasing.  Because
`f_retry` re-initialises its loop state from its arguments, the trace is
a pure function of `(op, N, d, b)`: no delay state is shared across
separate invocations, each starts afresh from `d`. -/
theorem retry_delay_sequence {E A : Type} (op : Nat → Except E A)
    (N : Nat) (d b : ℚ) :
    (∀ (k : Nat), 2 ≤ k →
       ∀ (h : k - 2 < (f_retry op N d b).sleeps.length),
       (f_retry op N d b).sleeps.get ⟨k - 2, h⟩ = d * b ^ (k - 2)) ∧
    (0 ≤ d → 1 ≤ b → (f_retry op N d b).sleeps.Pairwise (· ≤ ·)) := by
  obtain ⟨n, hn⟩ := retryGo_sleeps_geom op b N d 0
  have hn' : (f_retry op N d b).sleeps =
      (List.range n).map (fun i => d * b ^ i) := hn
  constructor
  · intro k _ h
    rw [List.get_of_eq hn' ⟨k - 2, h⟩]
    simp [List.get_eq_getElem]
  · intro hd hb
    rw [hn', List.pairwise_map]
    exact (List.pairwise_lt_range n).imp fun hij =>
      mul_le_mul_of_nonneg_left (pow_le_pow_right₀ hb (Nat.le_of_lt hij)) hd

/-- Witness for C3 at an always-failing operation with `N = 3`, `d = 1`,
`b = 2`: the wait before attempt 2 is `1 * 2 ^ 0` and the sleep list is
non-decreasing. -/
theorem retry_delay_sequence_witness :
    (f_retry (fun _ => (Except.error 0 : Except Nat Nat)) 3 1 2).sleeps.get
      ⟨0, by decide⟩ = 1 * 2 ^ 0 ∧
    (f_retry (fun _ => (Except.error 0 : Except Nat Nat)) 3 1 2).sleeps.Pairwise
      (· ≤ ·) :=
  ⟨(retry_delay_sequence (fun _ => Except.error 0) 3 1 2).1 2 (by omega)
      (by decide),
   (retry_delay_sequence (fun _ => Except.error 0) 3 1 2).2 (by norm_num)
      (by norm_num)⟩

/-- C4: if the wrapped operation succeeds at some attempt reachable
within the budget — the first `j` invocations fail and invocation `j`
(0-based) succeeds, with `j < N` — the wrapper returns that attempt's
result immediately: exactly `j + 1` invocations and one logged warning
per failed attempt.  At `j = 1` with `N ≥ 2` this is the claim's
scenario: an operation failing exactly once is invoked exactly twice,
the success value of the second attempt is returned, and exactly one
warning is logged. -/
theorem retry_stops_on_success {E A : Type} (op : Nat → Except E A)
    (N : Nat) (d b : ℚ) (j : Nat) (a : A) (errf : Nat → E)
    (hfail : ∀ k, k < j → op k = Except.error (errf k))
    (hsucc : op j = Except.ok a)
    (hjN : j < N) :
    (f_retry op N d b).calls = j + 1 ∧
    (f_retry op N d b).result = Except.ok a ∧
    (f_retry op N d b).logs.length = j :=
  retryGo_succ op b j N d 0 a errf
    (fun k hk => by rw [Nat.zero_add]; exact hfail k hk)
    (by rw [Nat.zero_add]; exact hsucc) hjN

/-- Witness for C4: an operation that fails on its first invocation and
succeeds with value 5 afterwards, run with `N = 2`: two invocations,
result 5, one logged warning. -/
theorem retry_stops_on_success_witness :
    (f_retry (fun k => if k = 0 then (Except.error 0 : Except Nat Nat)
        else Except.ok 5) 2 1 2).calls = 2 ∧
    (f_retry (fun k => if k = 0 then (Except.error 0 : Except Nat Nat)
        else Except.ok 5) 2 1 2).result = Except.ok 5 ∧
    (f_retry (fun k => if k = 0 then (Except.error 0 : Except Nat Nat)
        else Except.ok 5) 2 1 2).logs.length = 1 :=
  retry_stops_on_success _ 2 1 2 1 5 (fun _ => 0)
    (fun k hk => by
      have hk0 : k = 0 := by omega
      subst hk0
      rfl)
    rfl (by omega)

/-- Minimal JSON value model for response bodies. -/
inductive Json : Type
  | null : Json
  | bool (b : Bool) : Json
  | num (n : Int) : Json
  | str (s : String) : Json
  | arr (items : List Json) : Json
  | obj (fields : List (String × Json)) : Json

/-- Dictionary access `body[key]` on a parsed JSON value: the value
bound to the first occurrence of the key when the value is an object
and the key is present, `none` otherwise. -/
def Json.getField : Json → String → Option Json
  | Json.obj fields, key => fields.lookup key
  | _, _ => none

/-- An HTTP response from the remote service: status code and parsed
JSON body. -/
structure Response where
  status_code : Nat
  body : Json

/-- The error raised by `requests`' `raise_for_status`: it carries the
HTTP status and the response body. -/
structure HTTPError where
  status : Nat
  body : Json

/-- `requests.Response.raise_for_status`: raises `HTTPError` exactly on
a client-error (4xx) or server-error (5xx) status, and is a no-op on
every other status. -/
def raise_for_status (r : Response) : Except HTTPError Unit :=
  if 400 ≤ r.status_code ∧ r.status_code < 600 then
    Except.error ⟨r.status_code, r.body⟩
  else Except.ok ()

/-- `update_header` (api.py lines 145-150): PATCH then
`r.raise_for_status()` — the outcome is exactly that of
`raise_for_status` on the service's response.  `update_custom_field`,
`update_planned_finish`, `remove_planned_finish`, `move_card`,
`block_card` and `move_task` all end in the same `raise_for_status`
call. -/
def update_header (r : Response) : Except HTTPError Unit :=
  raise_for_status r

/-- `move_task` (api.py lines 125-130): POST the move then
`r.raise_for_status()`. -/
def move_task (r : Response) : Except HTTPError Unit :=
  raise_for_status r

/-- `change_card_type` (api.py lines 170-181): the status code is
inspected but `raise_for_status` is never called — on 200 an info
message is logged, otherwise `logging.error(r.json())` records the
body, and either way the function falls through returning `None`.  The
first component collects the error-level log messages. -/
def change_card_type (r : Response) : List Json × Except HTTPError Unit :=
  if r.status_code = 200 then ([], Except.ok ())
  else ([r.body], Except.ok ())

/-- `delete_card` (api.py lines 106-110): logs two warnings (the card id
interpolated into the first message is elided here) and issues the
DELETE without ever checking the response status — the best-effort
operation. -/
def delete_card (_r : Response) : List String × Except HTTPError Unit :=
  (["delete card", "Uncomment to complete"], Except.ok ())

/-- `add_card` (api.py lines 60-79): POST the card; on status 201 log at
info level and return `response.json()['id']`; on any other status log
the body at error level and call `response.raise_for_status()` — so a
4xx/5xx raises an error carrying that status and the body, while a
non-201 success status falls through returning `None`. -/
def add_card (r : Response) : Except HTTPError (Option Json) :=
  if r.status_code = 201 then Except.ok (r.body.getField "id")
  else
    match raise_for_status r with
    | Except.error e => Except.error e
    | Except.ok _ => Except.ok none

/-- C5 counterexample: `change_card_type` answered with a 400 does not
fail — it records the response body on the error log and returns `None`
to the caller, so this update operation does not surface a non-success
response, contrary to the claim. -/
theorem change_card_type_swallows_error_cex :
    change_card_type ⟨400, Json.null⟩ = ([Json.null], Except.ok ()) := rfl

/-- C5 amended: the operations that end in `raise_for_status` (here
`update_header` and `move_task`) fail with an error carrying the HTTP
status and response body exactly on a 4xx/5xx answer; but
`change_card_type` is a second silent-discard besides the best-effort
`delete_card`: it always returns `None` to the caller, and on a
non-200 answer it merely logs the response body at error level. -/
theorem error_status_surfacing_spec :
    (∀ r : Response, 400 ≤ r.status_code → r.status_code < 600 →
       update_header r = Except.error ⟨r.status_code, r.body⟩ ∧
       move_task r = Except.error ⟨r.status_code, r.body⟩) ∧
    (∀ r : Response, (change_card_type r).2 = Except.ok () ∧
       (r.status_code ≠ 200 → (change_card_type r).1 = [r.body])) ∧
    (∀ r : Response, (delete_card r).2 = Except.ok ()) := by
  refine ⟨fun r h1 h2 => ?_, fun r => ⟨?_, fun h => ?_⟩, fun r => rfl⟩
  · constructor <;> simp [update_header, move_task, raise_for_status, h1, h2]
  · by_cases h : r.status_code = 200 <;> simp [change_card_type, h]
  · simp [change_card_type, h]

/-- Witness for the amended C5: a 503 answer makes `update_header`
fail with status and body, while a 400 answer leaves `change_card_type`
merely logging the body. -/
theorem error_status_surfacing_spec_witness :
    update_header ⟨503, Json.null⟩ = Except.error ⟨503, Json.null⟩ ∧
    (change_card_type ⟨400, Json.null⟩).1 = [Json.null] :=
  ⟨(error_status_surfacing_spec.1 ⟨503, Json.null⟩ (by decide) (by decide)).1,
   (error_status_surfacing_spec.2.1 ⟨400, Json.null⟩).2 (by decide)⟩

/-- C6: a create-card request answered with HTTP 201 and a body whose
'id' field is 42 returns exactly 42 — the new identifier alone, never
the raw envelope, whatever else the body carries — and one answered
with HTTP 400 raises an error carrying status 400 and the response
body. -/
theorem add_card_scenario :
    (∀ extra, add_card ⟨201, Json.obj (("id", Json.num 42) :: extra)⟩ =
       Except.ok (some (Json.num 42))) ∧
    (∀ body, add_card ⟨400, body⟩ = Except.error ⟨400, body⟩) := by
  constructor
  · intro extra
    simp [add_card, Json.getField, List.lookup]
  · intro body
    simp [add_card, raise_for_status]

/-- A task on a card's sub-board (an entry of a lane's 'Cards' list):
only its 'Id' matters to `reset_card_tasks`. -/
structure TaskCard where
  Id : Nat

/-- A lane of a card's task sub-board: its 'Id' and its 'Cards'. -/
structure TaskLane where
  Id : Nat
  Cards : List TaskCard

/-- A card's task sub-board: its 'Lanes'. -/
structure TaskBoard where
  Lanes : List TaskLane

/-- One outbound `move_task(board_id, card_id, task_id, lane_id)` call
issued by `reset_card_tasks`; the board and card ids are those of the
enclosing call, so only the task and target lane are recorded. -/
structure MoveTaskCall where
  task_id : Nat
  lane_id : Nat

/-- `reset_card_tasks` (api.py lines 133-142): fetch the task board; a
falsy board (`if not tb: return`) means no calls are issued; otherwise
take the first lane's id (`tb['Lanes'][0]['Id']` — an IndexError,
modelled as `none`, when the board has no lanes), gather the 'Cards' of
every lane in order, and issue one move-task call per gathered task,
each targeting the first lane.  The result is the sequence of move-task
calls issued. -/
def reset_card_tasks (tb : Option TaskBoard) : Option (List MoveTaskCall) :=
  match tb with
  | none => some []
  | some board =>
    match board.Lanes.head? with
    | none => none
    | some l0 =>
      let tasks := board.Lanes.foldl (fun acc l => acc ++ l.Cards) []
      some (tasks.map (fun t => ⟨t.Id, l0.Id⟩))

/-- C7: whenever the fetched sub-board is present and has a first lane,
`reset_card_tasks` issues exactly one move-task call per task found in
every lane — tasks already in the first lane included — each call
targeting the first lane's id; on the sub-board with lanes
`[(Id 1, cards [10]), (Id 2, cards [20])]` it issues exactly the two
calls moving tasks 10 and 20 to lane 1. -/
theorem reset_card_tasks_spec :
    (∀ (board : TaskBoard) (l0 : TaskLane) (rest : List TaskLane),
       board.Lanes = l0 :: rest →
       reset_card_tasks (some board) =
         some ((board.Lanes.foldl (fun acc l => acc ++ l.Cards) []).map
           (fun t => ⟨t.Id, l0.Id⟩))) ∧
    reset_card_tasks (some ⟨[⟨1, [⟨10⟩]⟩, ⟨2, [⟨20⟩]⟩]⟩) =
      some [⟨10, 1⟩, ⟨20, 1⟩] := by
  constructor
  · intro board l0 rest h
    simp [reset_card_tasks, h]
  · rfl

/-- Witness for C7 at the claim's concrete sub-board. -/
theorem reset_card_tasks_spec_witness :
    reset_card_tasks (some ⟨[⟨1, [⟨10⟩]⟩, ⟨2, [⟨20⟩]⟩]⟩) =
      some [⟨10, 1⟩, ⟨20, 1⟩] :=
  reset_card_tasks_spec.1 ⟨[⟨1, [⟨10⟩]⟩, ⟨2, [⟨20⟩]⟩]⟩ ⟨1, [⟨10⟩]⟩
    [⟨2, [⟨20⟩]⟩] rfl

/-- The lane a card document sits in: the helpers only read its
'laneClassType'. -/
structure Lane where
  laneClassType : String

/-- A card document as read by the pure helpers: its 'lane' and its
'actualFinish'.  The finish date is modelled as a whole-day count and
`none` stands for a falsy 'actualFinish' (JSON null or empty string). -/
structure Card where
  lane : Lane
  actualFinish : Option Int

/-- `is_card_completed` (api.py lines 189-190): the pure comparison
`card['lane']['laneClassType'] == 'archive'`; no I/O. -/
def is_card_completed (card : Card) : Bool :=
  card.lane.laneClassType == "archive"

/-- `is_card_completed_recently` (api.py lines 193-197): a falsy
'actualFinish' makes the function return Python `None` (modelled
`none`); otherwise the parsed finish date is compared against the
current day: `(datetime.datetime.today() - date_completed).days <
days_ago`.  Dates are whole-day counts, `today` is passed explicitly,
and the Python default for `days_ago` is 30. -/
def is_card_completed_recently (card : Card) (today : Int)
    (days_ago : Int) : Option Bool :=
  match card.actualFinish with
  | none => none
  | some date_completed => some (decide (today - date_completed < days_ago))

/-- C9: `is_card_completed` returns `true` exactly when the card's lane
class is 'archive'; it is a pure function of the card document, with
the embedding performing no I/O.  In particular an archive lane gives
`true` and an active lane gives `false`. -/
theorem is_card_completed_spec :
    (∀ card : Card, is_card_completed card = true ↔
       card.lane.laneClassType = "archive") ∧
    is_card_completed ⟨⟨"archive"⟩, none⟩ = true ∧
    is_card_completed ⟨⟨"active"⟩, none⟩ = false := by
  refine ⟨fun card => ?_, by decide, by decide⟩
  simp [is_card_completed]

/-- C8: for every card and threshold, the helper returns the undefined
result `none` — not `false` — exactly when the card has no
actual-finish date; when a finish date is present it returns `some
true` iff that date falls within `days_ago` days of the current
moment, i.e. fewer than `days_ago` whole days have elapsed since it. -/
theorem is_card_completed_recently_spec (today days_ago : Int) :
    (∀ lane, is_card_completed_recently ⟨lane, none⟩ today days_ago = none) ∧
    (∀ (card : Card) (d : Int), card.actualFinish = some d →
       (is_card_completed_recently card today days_ago = some true ↔
         today - d < days_ago)) := by
  constructor
  · intro lane; rfl
  · rintro ⟨lane, fin⟩ d h
    cases h
    simp [is_card_completed_recently]

/-- Witness for C8: a card with no finish date gives `none`; a card
finished 10 days before a threshold of 30 gives `some true` iff 10 <
30. -/
theorem is_card_completed_recently_spec_witness :
    is_card_completed_recently ⟨⟨"active"⟩, none⟩ 100 30 = none ∧
    (is_card_completed_recently ⟨⟨"active"⟩, some 90⟩ 100 30 = some true ↔
      (100 : Int) - 90 < 30) :=
  ⟨(is_card_completed_recently_spec 100 30).1 ⟨"active"⟩,
   (is_card_completed_recently_spec 100 30).2 ⟨⟨"active"⟩, some 90⟩ 90 rfl⟩

/-- A query-parameter value as supplied to `get_cards`: the Python value
shapes the function can receive — `None`, booleans, integers, strings
and string lists. -/
inductive Param : Type
  | none : Param
  | bool (b : Bool) : Param
  | num (n : Int) : Param
  | str (s : String) : Param
  | list (items : List String) : Param

/-- Python truthiness as tested by `if not v` in `get_cards`: `None`,
`False`, `0`, the empty string and the empty list are the falsy
values. -/
def falsy : Param → Bool
  | Param.none => true
  | Param.bool b => !b
  | Param.num n => n == 0
  | Param.str s => s == ""
  | Param.list items => items.isEmpty

/-- The transformation a kept value undergoes: a list becomes the single
comma-joined string `','.join(v)`; everything else passes through
unchanged. -/
def render : Param → Param
  | Param.list items => Param.str (String.intercalate "," items)
  | p => p

/-- The parameter-building loop of `get_cards` (api.py lines 94-101):
iterate over the supplied locals in declaration order, skip falsy
values (`if not v: continue`), comma-join list values, copy everything
else verbatim.  (The `params` dict itself also appears in `locals()`,
but it is empty — falsy — when inspected, so it is always skipped.) -/
def build_params (kvs : List (String × Param)) : List (String × Param) :=
  kvs.foldl
    (fun params kv =>
      if falsy kv.2 then params
      else
        match kv.2 with
        | Param.list items =>
            params ++ [(kv.1, Param.str (String.intercalate "," items))]
        | v => params ++ [(kv.1, v)])
    []

/-- `get_cards` parameter assembly (api.py lines 92-103) applied to the
ten keyword parameters in declaration order.  The Python defaults are
`board=None, type=None, lane_class_types=None, lanes=None, since=None,
deleted=False, only=None, search=None, limit=5000, offset=0`. -/
def get_cards_params (board type lane_class_types lanes since deleted
    only search limit offset : Param) : List (String × Param) :=
  build_params
    [("board", board), ("type", type),
     ("lane_class_types", lane_class_types), ("lanes", lanes),
     ("since", since), ("deleted", deleted), ("only", only),
     ("search", search), ("limit", limit), ("offset", offset)]

/-- One loop step rewritten through `render`: a falsy value leaves the
accumulator alone, any other value is appended rendered. -/
theorem build_params_step (params : List (String × Param)) (k : String)
    (v : Param) :
    (if falsy v then params
     else
       match v with
       | Param.list items =>
           params ++ [(k, Param.str (String.intercalate "," items))]
       | v => params ++ [(k, v)]) =
    if falsy v then params else params ++ [(k, render v)] := by
  cases v <;> rfl

/-- The loop is a filter of the truthy entries followed by a rendering
map. -/
theorem build_params_eq (kvs : List (String × Param)) :
    build_params kvs =
      (kvs.filter (fun kv => !falsy kv.2)).map
        (fun kv => (kv.1, render kv.2)) := by
  suffices h : ∀ acc : List (String × Param),
      List.foldl
        (fun params kv =>
          if falsy kv.2 then params
          else
            match kv.2 with
            | Param.list items =>
                params ++ [(kv.1, Param.str (String.intercalate "," items))]
            | v => params ++ [(kv.1, v)]) acc kvs =
        acc ++ (kvs.filter (fun kv => !falsy kv.2)).map
          (fun kv => (kv.1, render kv.2)) by
    simpa [build_params] using h []
  induction kvs with
  | nil => intro acc; simp
  | cons kv rest IH =>
    intro acc
    simp only [List.foldl_cons]
    rw [build_params_step acc kv.1 kv.2]
    by_cases hf : falsy kv.2
    · rw [if_pos hf, IH acc, List.filter_cons]
      simp [hf]
    · rw [if_neg hf, IH (acc ++ [(kv.1, render kv.2)]), List.filter_cons]
      simp [hf]

/-- C10: the outbound query of list-cards keeps exactly the truthy
parameters: the assembled list equals the ten supplied pairs with every
falsy value dropped — and `None`, `False`, `0`, `""` and `[]` are all
falsy, so an explicitly supplied falsy value is indistinguishable from
an omitted one — every kept list joined into one comma-separated
string, and every other kept value passed through unchanged. -/
theorem get_cards_params_spec :
    (∀ board type lane_class_types lanes since deleted only search limit
        offset,
       get_cards_params board type lane_class_types lanes since deleted
           only search limit offset =
         ([("board", board), ("type", type),
           ("lane_class_types", lane_class_types), ("lanes", lanes),
           ("since", since), ("deleted", deleted), ("only", only),
           ("search", search), ("limit", limit),
           ("offset", offset)].filter (fun kv => !falsy kv.2)).map
           (fun kv => (kv.1, render kv.2))) ∧
    (falsy Param.none = true ∧ falsy (Param.bool false) = true ∧
     falsy (Param.num 0) = true ∧ falsy (Param.str "") = true ∧
     falsy (Param.list []) = true) ∧
    (∀ items, render (Param.list items) =
       Param.str (String.intercalate "," items)) ∧
    (∀ p : Param, (∀ items, p ≠ Param.list items) → render p = p) := by
  refine ⟨?_, ⟨rfl, rfl, by decide, by decide, rfl⟩, fun items => rfl, ?_⟩
  · intro board type lane_class_types lanes since deleted only search
      limit offset
    rw [get_cards_params, build_params_eq]
  · intro p hp
    cases p with
    | none => rfl
    | bool b => rfl
    | num n => rfl
    | str s => rfl
    | list items => exact absurd rfl (hp items)

/-- Witness for C10: supplying board 5, an explicit `deleted = False`,
an explicit empty search string, an explicit `offset = 0`, the lane
list `[a, b]` and the default limit yields exactly the board, the
comma-joined lanes and the limit; and a non-list value passes through
`render` unchanged. -/
theorem get_cards_params_spec_witness :
    get_cards_params (Param.num 5) Param.none Param.none
        (Param.list ["a", "b"]) Param.none (Param.bool false) Param.none
        (Param.str "") (Param.num 5000) (Param.num 0) =
      [("board", Param.num 5), ("lanes", Param.str "a,b"),
       ("limit", Param.num 5000)] ∧
    render (Param.num 7) = Param.num 7 :=
  ⟨get_cards_params_spec.1 (Param.num 5) Param.none Param.none
      (Param.list ["a", "b"]) Param.none (Param.bool false) Param.none
      (Param.str "") (Param.num 5000) (Param.num 0),
   get_cards_params_spec.2.2.2 (Param.num 7) (fun _ h => nomatch h)⟩
